import Mathlib

/-!
Verification of the session-verification layer of overtrack-gg/apextrack-web:
a shallow embedding of `overtrack_web/lib/authentication.py` (the functions
`check_authentication`, `make_cookie`, `make_error`, `require_login`), with the
JWT library, the flask request-scoped `g` object and the user ORM modelled
explicitly.

Modelling conventions:
  * Machine/JSON integers are Lean `Int` (Python ints are unbounded).
  * A JWT payload is restricted to the claim names this module ever touches
    (`key`, `battletag`, `user-id`, `superuser`, `iat`, `aud`, `exp`); each is
    `Option`-valued since any of them may be absent from a token.
  * A cookie value is either a well-formed signed token (payload plus the
    secret it was signed with) or a malformed string.  `jwt.decode` with
    verification succeeds exactly when the signing secret equals the
    process key, the token is not expired, and the audience claim matches;
    this mirrors pyjwt 1.x behaviour (signature, then `exp`, then `aud`;
    `iat` is parsed but not compared with the clock).
  * Python exceptions that escape the function are modelled with
    `Except PyExc`; logging calls become a `List LogEntry` in the result
    (a raised exception discards the log, like stderr side effects do not
    affect the returned value).
  * The best-effort unverified diagnostic decode
    (`jwt.decode(session, verify=False)` under a bare `except`) is an
    external-library call and is passed in as part of the environment.
-/

/-- The fields of a flask `Response` that `make_error` populates.  The JSON
body is kept structured rather than serialised. -/
structure ErrorBody where
  message : String
  authenticate_url : String
  redirect : String
deriving DecidableEq, Repr

structure Response where
  body : ErrorBody
  status : Nat
  mimetype : String
deriving DecidableEq, Repr

/-- A user record as read from the ORM (`overtrack_models.orm.user.User`),
restricted to the fields `authentication.py` reads. -/
structure User where
  user_id : Int
  key : String
  superuser : Bool
deriving DecidableEq, Repr

/-- Modelled from the spec: the `Session` record of
`overtrack_web/lib/session.py`, which is not part of the reviewed sources.
Spec section 3: fields `user_id` (integer identifier), `key` (string
identifier), `superuser` (boolean, default false). -/
structure Session where
  user_id : Int
  key : String
  superuser : Bool
deriving DecidableEq, Repr

/-- The JWT payload, restricted to the claims `authentication.py` touches.
`userId` stands for the hyphenated claim name `user-id`. -/
structure Claims where
  key : Option String
  battletag : Option String
  userId : Option Int
  superuser : Option Bool
  iat : Option Int
  aud : Option String
  exp : Option Int
deriving DecidableEq, Repr

/-- A value of the `session` cookie: either a structurally valid JWT (its
payload together with the secret that signed it) or a malformed string. -/
inductive CookieV
| malformed (raw : String)
| tok (payload : Claims) (secret : String)
deriving DecidableEq, Repr

/-- The ways `jwt.decode(..., verify signature/claims)` rejects a token;
all are subclasses of `jwt.InvalidTokenError`. -/
inductive JwtError
| decodeError
| signatureFailed
| expired
| missingAudience
| invalidAudience
deriving DecidableEq, Repr

/-- `str(e)` for the modelled `jwt.InvalidTokenError`s (pyjwt 1.x texts). -/
def errMsg : JwtError → String
| .decodeError => "Not enough segments"
| .signatureFailed => "Signature verification failed"
| .expired => "Signature has expired"
| .missingAudience => "Token is missing the aud claim"
| .invalidAudience => "Invalid audience"

/-- A Python exception escaping `check_authentication`; the only uncaught
exception its code can raise is a dictionary `KeyError`. -/
inductive PyExc
| keyError (key : String)
deriving DecidableEq, Repr

/-- Log/telemetry events emitted by `check_authentication`, in order.
`jwtInvalid` records the result of the best-effort unverified diagnostic
decode (`none` when that decode itself failed and the raw cookie was
logged instead). -/
inductive LogEntry
| noSession
| jwtInvalid (diag : Option Claims) (err : JwtError)
| userNotExist
| notSuperuserWarn
| sessionValid
| oldStyleSession
deriving DecidableEq, Repr

/-- The flask request-scoped state (`g.session`) together with the
in-process `_user_cache` of `overtrack_web/lib/session.py`.  The cache is
modelled from the spec (section 4.1: on a found user, cache the record
keyed by the user's key) as an association list with newest entry first. -/
structure GState where
  session : Option Session
  userCache : List (String × User)
deriving DecidableEq, Repr

/-- The per-request environment: the `session` cookie (`none` models an
absent or empty cookie, both falsy in `if not session`), the current time,
the user table (`User.user_id_index.get`), the external best-effort
unverified decoder, and the strings `request.url` / `url_for` of the login
endpoint. -/
structure Env where
  cookie : Option CookieV
  now : Int
  db : Int → Option User
  unverified_decode : CookieV → Option Claims
  requestUrl : String
  loginUrl : String

/-- Result of a normal (non-raising) return from `check_authentication`:
the returned value (`none` = success), the final request-scoped state, and
the log emitted. -/
structure AuthResult where
  resp : Option Response
  state : GState
  log : List LogEntry
deriving DecidableEq, Repr

/-- The module-level `HMAC_KEY = base64.b64decode(os.environ['HMAC_KEY'])`:
a process-wide symmetric secret, opaque to this module; modelled as an
abstract constant string. -/
def HMAC_KEY : String := "process-hmac-key"

/-- `SESSION_EXPIRE_TIME = 4 * 30 * 24 * 60 * 60`. -/
def SESSION_EXPIRE_TIME : Int := 4 * 30 * 24 * 60 * 60

/-- `jwt.decode(session, HMAC_KEY, algorithms=['HS256'], audience=...)`:
verify the signature, then `exp` against the clock, then the audience
claim (absent `aud` with a requested audience is also a rejection). -/
def jwt_decode (c : CookieV) (key : String) (now : Int) (audience : String) :
    Except JwtError Claims :=
  match c with
  | .malformed _ => .error .decodeError
  | .tok payload secret =>
    if secret = key then
      match payload.exp with
      | some e =>
        if e < now then .error .expired
        else match payload.aud with
          | none => .error .missingAudience
          | some a => if a = audience then .ok payload else .error .invalidAudience
      | none =>
        match payload.aud with
        | none => .error .missingAudience
        | some a => if a = audience then .ok payload else .error .invalidAudience
    else .error .signatureFailed

/-- `make_error(reason, status)` (status 401 at call sites that omit it). -/
def make_error (reason : String) (status : Nat) (requestUrl loginUrl : String) :
    Response :=
  { body :=
      { message := "Forbidden: " ++ reason
        authenticate_url := loginUrl
        redirect := loginUrl ++ "?next=" ++ requestUrl }
    status := status
    mimetype := "application/json" }

/-- Lines 170-173: `key = user_data.get('key'); if not key: key =
user_data['battletag']`.  An absent or empty (falsy) `key` claim falls back
to the `battletag` claim; an absent `battletag` then raises `KeyError`.
Returns the key together with whether the legacy fallback fired. -/
def resolve_key (user_data : Claims) : Except PyExc (String × Bool) :=
  match user_data.key with
  | some k => if k = "" then key_fallback user_data else .ok (k, false)
  | none => key_fallback user_data
where
  key_fallback (user_data : Claims) : Except PyExc (String × Bool) :=
    match user_data.battletag with
    | some b => .ok (b, true)
    | none => .error (.keyError "battletag")

/-- Lines 164-194 of `check_authentication`, entered after
`jwt.decode` succeeded with payload `user_data` and after the optional user
lookup (`log0` holds the log so far, `st` the state, with the user cache
already updated when a user was found): the superuser check, key
extraction with legacy fallback, and construction of `g.session`. -/
def finish_session (superuser_required : Bool) (env : Env) (st : GState)
    (user_data : Claims) (log0 : List LogEntry) : Except PyExc AuthResult :=
  if superuser_required ∧ ¬(user_data.superuser.getD false) then
    .ok { resp := some (make_error "Not superuser" 403 env.requestUrl env.loginUrl)
          state := st
          log := log0 ++ [.notSuperuserWarn] }
  else
    match resolve_key user_data with
    | .error e => .error e
    | .ok (key, legacy) =>
      match user_data.userId with
      | none => .error (.keyError "user-id")
      | some uid =>
        .ok { resp := none
              state := { st with session := some ⟨uid, key, user_data.superuser.getD false⟩ }
              log := log0 ++ [.sessionValid] ++
                (if legacy then [.oldStyleSession] else []) }

/-- Lines 154-194: the `else` branch after a successful verified decode:
optional user lookup (`check_user`), with `User.DoesNotExist` caught and a
`KeyError` from `user_data['user-id']` not caught, then `finish_session`. -/
def after_decode (superuser_required check_user : Bool) (env : Env)
    (st : GState) (user_data : Claims) : Except PyExc AuthResult :=
  if check_user then
    match user_data.userId with
    | none => .error (.keyError "user-id")
    | some uid =>
      match env.db uid with
      | none =>
        .ok { resp := some (make_error "User invalid" 401 env.requestUrl env.loginUrl)
              state := st
              log := [.userNotExist] }
      | some user =>
          finish_session superuser_required env
            { st with userCache := (user.key, user) :: st.userCache } user_data []
  else finish_session superuser_required env st user_data []

/-- `check_authentication(allow_audience, superuser_required, check_user)`
(lines 125-194): short-circuit on an existing `g.session`; reject when the
cookie is absent; verified decode with rejection (and best-effort
diagnostic decode) on `jwt.InvalidTokenError`; then `after_decode`. -/
def check_authentication (allow_audience : String)
    (superuser_required check_user : Bool) (env : Env) (st : GState) :
    Except PyExc AuthResult :=
  match st.session with
  | some _ => .ok { resp := none, state := st, log := [] }
  | none =>
    match env.cookie with
    | none =>
      .ok { resp := some (make_error "No session found" 401 env.requestUrl env.loginUrl)
            state := st
            log := [.noSession] }
    | some c =>
      match jwt_decode c HMAC_KEY env.now allow_audience with
      | .error e =>
        .ok { resp := some (make_error (errMsg e) 401 env.requestUrl env.loginUrl)
              state := st
              log := [.jwtInvalid (env.unverified_decode c) e] }
      | .ok user_data => after_decode superuser_required check_user env st user_data

/-- Outcome of the `require_login` wrapper: either the wrapped endpoint is
invoked (under the request-scoped state the verifier left) or an HTTP
redirect is returned. -/
inductive LoginOutcome
| proceed (st : GState)
| redirectTo (url : String)
deriving DecidableEq, Repr

/-- `require_login` (lines 104-122): run `check_authentication` with its
default flags (`allow_audience='webapp'`, `superuser_required=False`) and
the given `check_user`; on `None` invoke the endpoint, otherwise redirect
to `url_for('login.login', next=request.url)`. -/
def require_login (check_user : Bool) (env : Env) (st : GState) :
    Except PyExc LoginOutcome :=
  match check_authentication "webapp" false check_user env st with
  | .error e => .error e
  | .ok r =>
    match r.resp with
    | none => .ok (.proceed r.state)
    | some _ => .ok (.redirectTo (env.loginUrl ++ "?next=" ++ env.requestUrl))

/-- `make_cookie(user, audience, expiry)` (lines 197-209), with the call to
`int(time.time())` passed in as `now`.  Note `if expiry:` — the `exp` claim
is added only for a truthy (non-`None`, nonzero) expiry. -/
def make_cookie (user : User) (audience : String) (expiry : Option Int)
    (now : Int) : CookieV :=
  .tok
    { key := some user.key
      battletag := none
      userId := some user.user_id
      superuser := some user.superuser
      iat := some now
      aud := some audience
      exp := match expiry with
             | some e => if e = 0 then none else some (now + e)
             | none => none }
    HMAC_KEY

/-! ## Concrete fixtures used by sanity examples and witnesses -/

/-- A plausible external unverified decoder: succeeds on structurally valid
tokens, fails on malformed ones. -/
def diagOf : CookieV → Option Claims
| .malformed _ => none
| .tok p _ => some p

def sampleUser : User := { user_id := 7, key := "abc", superuser := false }

def emptyState : GState := { session := none, userCache := [] }

def baseEnv : Env :=
  { cookie := none
    now := 50
    db := fun _ => none
    unverified_decode := diagOf
    requestUrl := "https://apextrack/games"
    loginUrl := "/login" }

example :
    check_authentication "webapp" false false
      { baseEnv with cookie := some (make_cookie sampleUser "webapp" (some 100) 0) }
      emptyState =
    .ok { resp := none
          state := { session := some { user_id := 7, key := "abc", superuser := false }
                     userCache := [] }
          log := [.sessionValid] } := rfl

example :
    check_authentication "webapp" false false
      { baseEnv with cookie := some (make_cookie sampleUser "webapp" (some 100) 0), now := 200 }
      emptyState =
    .ok { resp := some (make_error "Signature has expired" 401 baseEnv.requestUrl baseEnv.loginUrl)
          state := emptyState
          log := [.jwtInvalid (diagOf (make_cookie sampleUser "webapp" (some 100) 0)) .expired] } := by
  rfl

/-! ## C2: idempotent short-circuit -/

/-- C2: if request-scoped state already holds a session, then for every
audience, every combination of `superuser_required` / `check_user`, and
every environment (cookie, user table, clock), `check_authentication`
returns `None` with the state unchanged and nothing decoded, looked up or
logged — even when a fresh verification under those flags would reject. -/
theorem C2_short_circuit (allow_audience : String)
    (superuser_required check_user : Bool) (env : Env) (st : GState)
    (s : Session) (h : st.session = some s) :
    check_authentication allow_audience superuser_required check_user env st =
      .ok { resp := none, state := st, log := [] } := by
  unfold check_authentication
  rw [h]

/-- Witness for C2 at a concrete input: the stored session is not a
superuser session and the environment holds no cookie at all, so a fresh
verification with `superuser_required` would reject, yet the call
succeeds and leaves the state untouched. -/
theorem C2_short_circuit_witness :
    ({ session := some { user_id := 7, key := "abc", superuser := false },
       userCache := [] } : GState).session =
        some { user_id := 7, key := "abc", superuser := false } ∧
    check_authentication "webapp" true true baseEnv
      { session := some { user_id := 7, key := "abc", superuser := false },
        userCache := [] } =
      .ok { resp := none
            state := { session := some { user_id := 7, key := "abc", superuser := false },
                       userCache := [] }
            log := [] } :=
  ⟨rfl, C2_short_circuit "webapp" true true baseEnv
    { session := some { user_id := 7, key := "abc", superuser := false }, userCache := [] }
    { user_id := 7, key := "abc", superuser := false } rfl⟩

/-! ## C6: token issuance contents (corrected: `if expiry:` also drops
`exp` for a zero expiry, not only for a null one) -/

/-- C6 counterexample: with the non-null expiry `some 0` the signed
payload carries no `exp` claim, refuting "exp is present exactly when
expiry is non-null". -/
theorem C6_zero_expiry_cex :
    (some 0 : Option Int) ≠ none ∧
    make_cookie { user_id := 1, key := "k", superuser := false } "webapp" (some 0) 10 =
      .tok { key := some "k", battletag := none, userId := some 1,
             superuser := some false, iat := some 10, aud := some "webapp",
             exp := none } HMAC_KEY :=
  ⟨by decide, rfl⟩

/-- C6 (amended): for every user, audience, expiry and clock value,
`make_cookie` signs (with the process key) a payload with
`key = user.key`, `user-id = user.user_id`, `superuser = user.superuser`,
`iat = now`, `aud = audience`, and the payload carries
`exp = iat + expiry` exactly when the expiry is non-null *and nonzero*
(Python `if expiry:` is false for both `None` and `0`). -/
theorem C6_token_contents (user : User) (audience : String)
    (expiry : Option Int) (now : Int) :
    ∃ p, make_cookie user audience expiry now = .tok p HMAC_KEY ∧
      p.key = some user.key ∧
      p.userId = some user.user_id ∧
      p.superuser = some user.superuser ∧
      p.iat = some now ∧
      p.aud = some audience ∧
      (∀ e, expiry = some e → e ≠ 0 → p.exp = some (now + e)) ∧
      ((expiry = none ∨ expiry = some 0) → p.exp = none) := by
  refine ⟨_, rfl, rfl, rfl, rfl, rfl, rfl, ?_, ?_⟩
  · intro e he hne
    subst he
    simp [hne]
  · rintro (h | h) <;> subst h <;> simp

/-! ## C1: round-trip (corrected: a user whose `key` is the empty string
breaks the round-trip, because the falsy key triggers the `battletag`
fallback and raises `KeyError`) -/

/-- C1 counterexample: a user record with `key = ""` is issued a valid
token, but verifying it raises `KeyError('battletag')` instead of
succeeding, so the round-trip does not hold for every user record. -/
theorem C1_empty_key_cex :
    check_authentication "webapp" false false
      { baseEnv with
          cookie := some (make_cookie { user_id := 1, key := "", superuser := false }
                            "webapp" (some 100) 0) }
      emptyState =
      .error (.keyError "battletag") := rfl

/-- C1 (amended): for every user record *whose key is non-empty*, signing
with `make_cookie` (positive expiry, issue time `t`) and verifying with
`check_authentication` under the same audience, the same process secret, a
clock not past `exp`, no pre-existing session, `superuser_required=false`
and `check_user=false`, succeeds (returns `None`) and attaches a `Session`
whose `user_id`, `key` and `superuser` equal the user's. -/
theorem C1_round_trip (user : User) (audience : String) (e t : Int)
    (env : Env) (st : GState)
    (hkey : user.key ≠ "") (hpos : 0 < e)
    (hc : env.cookie = some (make_cookie user audience (some e) t))
    (hnow : env.now ≤ t + e) (hsess : st.session = none) :
    check_authentication audience false false env st =
      .ok { resp := none
            state := { st with session := some ⟨user.user_id, user.key, user.superuser⟩ }
            log := [.sessionValid] } := by
  have he0 : e ≠ 0 := by omega
  have hexp : ¬(t + e < env.now) := not_lt.mpr hnow
  unfold check_authentication
  rw [hsess, hc]
  simp [make_cookie, jwt_decode, he0, hexp, after_decode, finish_session,
    resolve_key, hkey]

/-- Witness for C1 at a concrete input: user (7, "abc", non-superuser),
audience "webapp", expiry 100 issued at time 0, verified at time 50. -/
theorem C1_round_trip_witness :
    check_authentication "webapp" false false
      { baseEnv with cookie := some (make_cookie sampleUser "webapp" (some 100) 0) }
      emptyState =
      .ok { resp := none
            state := { emptyState with session := some ⟨sampleUser.user_id, sampleUser.key, sampleUser.superuser⟩ }
            log := [.sessionValid] } :=
  C1_round_trip sampleUser "webapp" 100 0
    { baseEnv with cookie := some (make_cookie sampleUser "webapp" (some 100) 0) }
    emptyState (by decide) (by decide) rfl (by decide) rfl

/-! ## Classification lemmas for the success branch -/

/-- Every normal return of `finish_session` is either the "Not superuser"
403 rejection (state untouched) or a success that stores the session built
from the resolved key and the `user-id` claim. -/
theorem finish_session_spec (su : Bool) (env : Env) (st : GState) (p : Claims)
    (log0 : List LogEntry) (r : AuthResult)
    (h : finish_session su env st p log0 = .ok r) :
    (su = true ∧ p.superuser.getD false = false ∧
      r = { resp := some (make_error "Not superuser" 403 env.requestUrl env.loginUrl),
            state := st, log := log0 ++ [.notSuperuserWarn] }) ∨
    (∃ uid key legacy, p.userId = some uid ∧ resolve_key p = .ok (key, legacy) ∧
      r = { resp := none
            state := { st with session := some ⟨uid, key, p.superuser.getD false⟩ }
            log := log0 ++ [.sessionValid] ++
              (if legacy then [.oldStyleSession] else []) }) := by
  unfold finish_session at h
  split at h
  · rename_i hcond
    left
    injection h with h
    exact ⟨by simpa using hcond.1, by simpa using hcond.2, h.symm⟩
  · right
    split at h
    · exact absurd h (by simp)
    · rename_i key legacy hk
      split at h
      · exact absurd h (by simp)
      · rename_i uid huid
        injection h with h
        exact ⟨uid, key, legacy, huid, hk, h.symm⟩

/-- Every normal return of `after_decode` is the "User invalid" 401
rejection (when `check_user` found no user; state untouched), the "Not
superuser" 403 rejection (session untouched), or a success whose stored
session comes from the token's claims. -/
theorem after_decode_spec (su cu : Bool) (env : Env) (st : GState) (p : Claims)
    (r : AuthResult) (h : after_decode su cu env st p = .ok r) :
    (cu = true ∧
      r = { resp := some (make_error "User invalid" 401 env.requestUrl env.loginUrl),
            state := st, log := [.userNotExist] }) ∨
    (su = true ∧ p.superuser.getD false = false ∧
      r.resp = some (make_error "Not superuser" 403 env.requestUrl env.loginUrl) ∧
      r.state.session = st.session) ∨
    (r.resp = none ∧ ∃ uid key legacy, p.userId = some uid ∧
      resolve_key p = .ok (key, legacy) ∧
      r.state.session = some ⟨uid, key, p.superuser.getD false⟩) := by
  unfold after_decode at h
  split at h
  · rename_i hcu
    split at h
    · exact absurd h (by simp)
    · rename_i uid huid
      split at h
      · left
        injection h with h
        exact ⟨by simpa using hcu, h.symm⟩
      · rename_i user hdb
        rcases finish_session_spec su env _ p [] r h with
          ⟨h1, h2, h3⟩ | ⟨uid2, key, legacy, h1, h2, h3⟩
        · right; left
          exact ⟨h1, h2, by rw [h3], by rw [h3]⟩
        · right; right
          exact ⟨by rw [h3], uid2, key, legacy, h1, h2, by rw [h3]⟩
  · rcases finish_session_spec su env st p [] r h with
      ⟨h1, h2, h3⟩ | ⟨uid2, key, legacy, h1, h2, h3⟩
    · right; left
      exact ⟨h1, h2, by rw [h3], by rw [h3]⟩
    · right; right
      exact ⟨by rw [h3], uid2, key, legacy, h1, h2, by rw [h3]⟩

/-- Every normal return of `check_authentication` entered with no session
in request-scoped state is: a 401 rejection leaving the session state
empty, the 403 "Not superuser" rejection leaving the session state empty,
or a success (`None`) that stored a session. -/
theorem check_authentication_spec (a : String) (su cu : Bool) (env : Env)
    (st : GState) (r : AuthResult) (hsess : st.session = none)
    (h : check_authentication a su cu env st = .ok r) :
    ((∃ reason, r.resp = some (make_error reason 401 env.requestUrl env.loginUrl)) ∧
       r.state.session = none) ∨
    (su = true ∧ r.resp = some (make_error "Not superuser" 403 env.requestUrl env.loginUrl) ∧
       r.state.session = none) ∨
    (r.resp = none ∧ ∃ s, r.state.session = some s) := by
  unfold check_authentication at h
  rw [hsess] at h
  split at h
  · rename_i s heq
    exact Option.noConfusion heq
  · split at h
    · have hr := (Except.ok.inj h).symm
      subst hr
      left
      exact ⟨⟨"No session found", rfl⟩, hsess⟩
    · rename_i c heq
      split at h
      · rename_i e heq2
        have hr := (Except.ok.inj h).symm
        subst hr
        left
        exact ⟨⟨errMsg e, rfl⟩, hsess⟩
      · rename_i p heq2
        rcases after_decode_spec su cu env st p r h with
          ⟨h1, h2⟩ | ⟨h1, h2, h3, h4⟩ | ⟨h1, uid, key, legacy, h2, h3, h4⟩
        · subst h2
          left
          exact ⟨⟨"User invalid", rfl⟩, hsess⟩
        · right; left
          exact ⟨h1, h3, by rw [h4, hsess]⟩
        · right; right
          exact ⟨h1, ⟨uid, key, p.superuser.getD false⟩, h4⟩

/-! ## C4: user resolution failure -/

/-- C4: for every validly-signed, audience-matching, unexpired token (the
verified decode succeeded), if `check_user=true` and the lookup of the
token's `user-id` finds no user, `check_authentication` rejects with
status 401 and the "User invalid" message, leaving the state unchanged —
for both values of `superuser_required` (the user check precedes the
superuser check). -/
theorem C4_user_invalid (allow_audience : String) (superuser_required : Bool)
    (env : Env) (st : GState) (c : CookieV) (p : Claims) (uid : Int)
    (hsess : st.session = none) (hc : env.cookie = some c)
    (hdec : jwt_decode c HMAC_KEY env.now allow_audience = .ok p)
    (huid : p.userId = some uid) (hdb : env.db uid = none) :
    check_authentication allow_audience superuser_required true env st =
      .ok { resp := some (make_error "User invalid" 401 env.requestUrl env.loginUrl)
            state := st
            log := [.userNotExist] } := by
  unfold check_authentication
  rw [hsess, hc]
  simp [hdec, after_decode, huid, hdb]

def c4payload : Claims :=
  { key := some "abc", battletag := none, userId := some 9,
    superuser := some true, iat := some 0, aud := some "webapp", exp := none }

def c4env : Env := { baseEnv with cookie := some (.tok c4payload HMAC_KEY) }

/-- Witness for C4 at a concrete input: a valid superuser token whose
`user-id` (9) has no backing record, with `superuser_required=true`, still
yields the 401 "User invalid" rejection. -/
theorem C4_user_invalid_witness :
    check_authentication "webapp" true true c4env emptyState =
      .ok { resp := some (make_error "User invalid" 401 c4env.requestUrl c4env.loginUrl)
            state := emptyState
            log := [.userNotExist] } :=
  C4_user_invalid "webapp" true c4env emptyState (.tok c4payload HMAC_KEY)
    c4payload 9 rfl rfl rfl rfl rfl

/-! ## C5: superuser policy -/

/-- C5: for every validly-signed, audience-matching, unexpired token (with
the user found whenever `check_user=true`) and no pre-existing session,
under `superuser_required=true`: if the token's `superuser` claim is
absent or false, `check_authentication` rejects with the "Not superuser"
message and status 403; and if the claim is `true`, no 403 rejection is
produced. -/
theorem C5_superuser_policy (allow_audience : String) (check_user : Bool)
    (env : Env) (st : GState) (c : CookieV) (p : Claims)
    (hsess : st.session = none) (hc : env.cookie = some c)
    (hdec : jwt_decode c HMAC_KEY env.now allow_audience = .ok p)
    (huser : check_user = true → ∃ uid u, p.userId = some uid ∧ env.db uid = some u) :
    (p.superuser.getD false = false →
      ∃ st2 log, check_authentication allow_audience true check_user env st =
        .ok { resp := some (make_error "Not superuser" 403 env.requestUrl env.loginUrl)
              state := st2, log := log }) ∧
    (p.superuser = some true →
      ∀ r resp, check_authentication allow_audience true check_user env st = .ok r →
        r.resp = some resp → resp.status ≠ 403) := by
  constructor
  · intro hsu
    cases hcu : check_user with
    | true =>
      obtain ⟨uid, u, huid, hdb⟩ := huser hcu
      refine ⟨{ st with userCache := (u.key, u) :: st.userCache }, [.notSuperuserWarn], ?_⟩
      unfold check_authentication
      rw [hsess, hc]
      simp [hdec, after_decode, huid, hdb, finish_session, hsu, hsess]
    | false =>
      refine ⟨st, [.notSuperuserWarn], ?_⟩
      unfold check_authentication
      rw [hsess, hc]
      simp [hdec, after_decode, finish_session, hsu, hsess]
  · intro hsu r resp h hresp
    unfold check_authentication at h
    rw [hsess] at h
    simp only [hc] at h
    rw [hdec] at h
    rcases after_decode_spec true check_user env st p r h with
      ⟨h1, h2⟩ | ⟨h1, h2, h3, h4⟩ | ⟨h1, uid, key, legacy, h2, h3, h4⟩
    · subst h2
      have hre := Option.some.inj hresp
      rw [← hre]
      simp [make_error]
    · rw [hsu] at h2
      simp at h2
    · rw [h1] at hresp
      exact Option.noConfusion hresp

def c5payload : Claims :=
  { key := some "abc", battletag := none, userId := some 7,
    superuser := none, iat := some 0, aud := some "webapp", exp := none }

def c5env : Env := { baseEnv with cookie := some (.tok c5payload HMAC_KEY) }

/-- Witness for C5 at a concrete input: a valid token with no `superuser`
claim checked with `superuser_required=true`, `check_user=false`. -/
theorem C5_superuser_policy_witness :
    (c5payload.superuser.getD false = false →
      ∃ st2 log, check_authentication "webapp" true false c5env emptyState =
        .ok { resp := some (make_error "Not superuser" 403 c5env.requestUrl c5env.loginUrl)
              state := st2, log := log }) ∧
    (c5payload.superuser = some true →
      ∀ r resp, check_authentication "webapp" true false c5env emptyState = .ok r →
        r.resp = some resp → resp.status ≠ 403) :=
  C5_superuser_policy "webapp" false c5env emptyState (.tok c5payload HMAC_KEY)
    c5payload rfl rfl rfl (by intro h; exact absurd h (by decide))

/-! ## C7: diagnostic decode non-interference -/

/-- C7: whenever the verified decode of the cookie fails with error `e`,
the outcome of `check_authentication` is a 401 rejection whose message
carries that underlying failure, with the state unchanged — and the
outcome (response and state) is the same for any two behaviours `d1`, `d2`
of the best-effort unverified diagnostic decode; only the logged payload
differs. -/
theorem C7_diag_non_interference (allow_audience : String)
    (superuser_required check_user : Bool) (env : Env) (st : GState)
    (c : CookieV) (e : JwtError) (d1 d2 : CookieV → Option Claims)
    (hsess : st.session = none) (hc : env.cookie = some c)
    (hdec : jwt_decode c HMAC_KEY env.now allow_audience = .error e) :
    (check_authentication allow_audience superuser_required check_user
        { env with unverified_decode := d1 } st =
      .ok { resp := some (make_error (errMsg e) 401 env.requestUrl env.loginUrl)
            state := st, log := [.jwtInvalid (d1 c) e] }) ∧
    (check_authentication allow_audience superuser_required check_user
        { env with unverified_decode := d2 } st =
      .ok { resp := some (make_error (errMsg e) 401 env.requestUrl env.loginUrl)
            state := st, log := [.jwtInvalid (d2 c) e] }) := by
  constructor <;> (unfold check_authentication; rw [hsess]; simp [hc, hdec])

def c7env : Env := { baseEnv with cookie := some (.malformed "not-a-jwt") }

def c7payload : Claims :=
  { key := some "x", battletag := none, userId := some 1,
    superuser := none, iat := none, aud := none, exp := none }

/-- Witness for C7 at a concrete input: a malformed cookie, one run whose
diagnostic decoder succeeds (returning some payload) and one whose
diagnostic decoder fails; both runs produce the same 401 rejection and
state. -/
theorem C7_diag_non_interference_witness :
    (check_authentication "webapp" false false
        { c7env with unverified_decode := fun _ => some c7payload } emptyState =
      .ok { resp := some (make_error (errMsg .decodeError) 401 c7env.requestUrl c7env.loginUrl)
            state := emptyState
            log := [.jwtInvalid ((fun _ => some c7payload) (CookieV.malformed "not-a-jwt")) .decodeError] }) ∧
    (check_authentication "webapp" false false
        { c7env with unverified_decode := fun _ => none } emptyState =
      .ok { resp := some (make_error (errMsg .decodeError) 401 c7env.requestUrl c7env.loginUrl)
            state := emptyState
            log := [.jwtInvalid ((fun _ => none : CookieV → Option Claims) (CookieV.malformed "not-a-jwt")) .decodeError] }) :=
  C7_diag_non_interference "webapp" false false c7env emptyState
    (.malformed "not-a-jwt") .decodeError
    (fun _ => some c7payload) (fun _ => none) rfl rfl rfl

/-! ## C8: session attached exactly on success -/

/-- C8: for every input and flag combination, a call to
`check_authentication` that starts with no session in request-scoped state
and returns normally attaches a `Session` if and only if it returned
`None`; on every rejection the request-scoped session state is still
empty. -/
theorem C8_session_only_on_success (allow_audience : String)
    (superuser_required check_user : Bool) (env : Env) (st : GState)
    (hsess : st.session = none) :
    ∀ r, check_authentication allow_audience superuser_required check_user env st = .ok r →
      ((r.resp = none ↔ r.state.session.isSome = true) ∧
       (r.resp.isSome = true → r.state.session = none)) := by
  intro r h
  rcases check_authentication_spec allow_audience superuser_required check_user
      env st r hsess h with
    ⟨⟨reason, h1⟩, h2⟩ | ⟨h1, h2, h3⟩ | ⟨h1, s, h2⟩
  · simp [h1, h2]
  · simp [h2, h3]
  · simp [h1, h2]

/-- Witness for C8 at a concrete input: the cookie-less request is
rejected and the request-scoped session state stays empty. -/
theorem C8_session_only_on_success_witness :
    ((({ resp := some (make_error "No session found" 401 baseEnv.requestUrl baseEnv.loginUrl),
         state := emptyState, log := [.noSession] } : AuthResult).resp = none ↔
      ({ resp := some (make_error "No session found" 401 baseEnv.requestUrl baseEnv.loginUrl),
         state := emptyState, log := [.noSession] } : AuthResult).state.session.isSome = true) ∧
     (({ resp := some (make_error "No session found" 401 baseEnv.requestUrl baseEnv.loginUrl),
         state := emptyState, log := [.noSession] } : AuthResult).resp.isSome = true →
      ({ resp := some (make_error "No session found" 401 baseEnv.requestUrl baseEnv.loginUrl),
         state := emptyState, log := [.noSession] } : AuthResult).state.session = none)) :=
  C8_session_only_on_success "webapp" false false baseEnv emptyState rfl
    { resp := some (make_error "No session found" 401 baseEnv.requestUrl baseEnv.loginUrl),
      state := emptyState, log := [.noSession] } rfl

/-! ## C3: totality at the boundary (corrected: a validly-signed token
missing both `key` and `battletag`, or missing `user-id`, raises
`KeyError` out of the verifier) -/

/-- The claims a verified payload must carry for `check_authentication`
to return (rather than raise): a `user-id`, and a non-falsy `key` or a
`battletag` to fall back on. -/
def hasSessionFields (p : Claims) : Prop :=
  p.userId.isSome = true ∧
    ((∃ k, p.key = some k ∧ k ≠ "") ∨ p.battletag.isSome = true)

/-- C3 counterexample: a validly-signed, audience-matching, unexpired
token carrying neither a `key` nor a `battletag` claim makes
`check_authentication` raise `KeyError('battletag')` instead of returning
a value, refuting totality at the boundary. -/
theorem C3_keyerror_cex :
    check_authentication "webapp" false false
      { baseEnv with cookie := some (.tok
          { key := none, battletag := none, userId := some 1,
            superuser := none, iat := some 0, aud := some "webapp", exp := none }
          HMAC_KEY) }
      emptyState =
      .error (.keyError "battletag") := rfl

theorem resolve_key_total (p : Claims)
    (h : (∃ k, p.key = some k ∧ k ≠ "") ∨ p.battletag.isSome = true) :
    ∃ kl, resolve_key p = .ok kl := by
  rcases h with ⟨k, hk, hne⟩ | hb
  · exact ⟨(k, false), by simp [resolve_key, hk, hne]⟩
  · obtain ⟨b, hb2⟩ := Option.isSome_iff_exists.mp hb
    cases hkk : p.key with
    | none => exact ⟨(b, true), by simp [resolve_key, resolve_key.key_fallback, hkk, hb2]⟩
    | some k =>
      by_cases hke : k = ""
      · exact ⟨(b, true), by simp [resolve_key, resolve_key.key_fallback, hkk, hke, hb2]⟩
      · exact ⟨(k, false), by simp [resolve_key, hkk, hke]⟩

theorem finish_session_total (su : Bool) (env : Env) (st : GState) (p : Claims)
    (log0 : List LogEntry) (huid : p.userId.isSome = true)
    (hkb : (∃ k, p.key = some k ∧ k ≠ "") ∨ p.battletag.isSome = true) :
    ∃ r, finish_session su env st p log0 = .ok r := by
  unfold finish_session
  split
  · exact ⟨_, rfl⟩
  · obtain ⟨key, legacy, hkl⟩ : ∃ key legacy, resolve_key p = .ok (key, legacy) := by
      obtain ⟨⟨key, legacy⟩, hkl⟩ := resolve_key_total p hkb
      exact ⟨key, legacy, hkl⟩
    rw [hkl]
    obtain ⟨uid, huid2⟩ := Option.isSome_iff_exists.mp huid
    rw [huid2]
    exact ⟨_, rfl⟩

theorem after_decode_total (su cu : Bool) (env : Env) (st : GState) (p : Claims)
    (hp : hasSessionFields p) :
    ∃ r, after_decode su cu env st p = .ok r := by
  obtain ⟨huid, hkb⟩ := hp
  obtain ⟨uid, huid2⟩ := Option.isSome_iff_exists.mp huid
  cases hcu : cu with
  | false =>
    obtain ⟨r, hr⟩ := finish_session_total su env st p [] huid hkb
    exact ⟨r, by simp [after_decode, hr]⟩
  | true =>
    cases hdb : env.db uid with
    | none =>
      refine ⟨{ resp := some (make_error "User invalid" 401 env.requestUrl env.loginUrl),
                state := st, log := [.userNotExist] }, ?_⟩
      simp [after_decode, huid2, hdb]
    | some u =>
      obtain ⟨r, hr⟩ := finish_session_total su env
        { st with userCache := (u.key, u) :: st.userCache } p [] huid hkb
      exact ⟨r, by simp [after_decode, huid2, hdb, hr]⟩

/-- C3 (amended): for every cookie value (absent, malformed, or a
validly-signed token with arbitrary claim contents) and every combination
of policy flags, `check_authentication` either returns `None` or returns a
rejection `Response` — provided every token the verified decode accepts
carries a `user-id` claim and either a non-empty `key` claim or a
`battletag` claim.  (Without that proviso the verifier can raise
`KeyError`, see the counterexample.) -/
theorem C3_no_crash (allow_audience : String) (superuser_required check_user : Bool)
    (env : Env) (st : GState)
    (h : ∀ c p, env.cookie = some c →
      jwt_decode c HMAC_KEY env.now allow_audience = .ok p → hasSessionFields p) :
    ∃ r, check_authentication allow_audience superuser_required check_user env st = .ok r := by
  cases hs : st.session with
  | some s => exact ⟨{ resp := none, state := st, log := [] }, by simp [check_authentication, hs]⟩
  | none =>
    cases hc : env.cookie with
    | none =>
      refine ⟨{ resp := some (make_error "No session found" 401 env.requestUrl env.loginUrl),
                state := st, log := [.noSession] }, ?_⟩
      simp [check_authentication, hs, hc]
    | some c =>
      cases hd : jwt_decode c HMAC_KEY env.now allow_audience with
      | error e =>
        refine ⟨{ resp := some (make_error (errMsg e) 401 env.requestUrl env.loginUrl),
                  state := st, log := [.jwtInvalid (env.unverified_decode c) e] }, ?_⟩
        simp [check_authentication, hs, hc, hd]
      | ok p =>
        obtain ⟨r, hr⟩ := after_decode_total superuser_required check_user env st p (h c p hc hd)
        exact ⟨r, by simp [check_authentication, hs, hc, hd, hr]⟩

/-- Witness for C3 at a concrete input: a malformed cookie under both
strict flags never escapes as an exception. -/
theorem C3_no_crash_witness :
    ∃ r, check_authentication "webapp" true true
      { baseEnv with cookie := some (.malformed "xyz") } emptyState = .ok r :=
  C3_no_crash "webapp" true true
    { baseEnv with cookie := some (.malformed "xyz") } emptyState
    (by
      intro c p hc hd
      injection hc with hc
      subst hc
      simp [jwt_decode] at hd)

/-! ## C9: redirect gate -/

/-- C9: the `require_login` wrapper invokes the wrapped endpoint exactly
when `check_authentication` (run with its default audience and
`superuser_required=false`) returns `None`; on every rejection, whatever
its status code, it instead returns a redirect to the login endpoint with
the original request URL as the `next` query parameter. -/
theorem C9_redirect_gate (check_user : Bool) (env : Env) (st : GState) :
    (∀ r, check_authentication "webapp" false check_user env st = .ok r →
       r.resp = none → require_login check_user env st = .ok (.proceed r.state)) ∧
    (∀ r resp, check_authentication "webapp" false check_user env st = .ok r →
       r.resp = some resp →
       require_login check_user env st =
         .ok (.redirectTo (env.loginUrl ++ "?next=" ++ env.requestUrl))) ∧
    (∀ st2, require_login check_user env st = .ok (.proceed st2) →
       ∃ r, check_authentication "webapp" false check_user env st = .ok r ∧
         r.resp = none ∧ r.state = st2) := by
  refine ⟨?_, ?_, ?_⟩
  · intro r h hr
    simp [require_login, h, hr]
  · intro r resp h hr
    simp [require_login, h, hr]
  · intro st2 h
    unfold require_login at h
    cases hca : check_authentication "webapp" false check_user env st with
    | error e =>
      rw [hca] at h
      exact absurd h (by simp)
    | ok r =>
      rw [hca] at h
      cases hr : r.resp with
      | none =>
        simp only [hr] at h
        refine ⟨r, rfl, hr, ?_⟩
        simpa using h
      | some resp =>
        simp [hr] at h

/-- Witness for C9 at a concrete input: with no cookie the verifier
rejects, and `require_login` responds with the login redirect carrying the
original URL in `next`. -/
theorem C9_redirect_gate_witness :
    require_login false baseEnv emptyState =
      .ok (.redirectTo (baseEnv.loginUrl ++ "?next=" ++ baseEnv.requestUrl)) :=
  (C9_redirect_gate false baseEnv emptyState).2.1
    { resp := some (make_error "No session found" 401 baseEnv.requestUrl baseEnv.loginUrl),
      state := emptyState, log := [.noSession] }
    (make_error "No session found" 401 baseEnv.requestUrl baseEnv.loginUrl) rfl rfl

/-! ## C10: a present-but-falsy `key` claim also falls back (corrected:
the token must additionally carry a `user-id` claim, else the verifier
raises `KeyError` instead of succeeding) -/

/-- C10 counterexample: a validly-signed, audience-matching, unexpired
token with `key = ""` and a `battletag` but no `user-id` claim makes
`check_authentication` raise `KeyError('user-id')` rather than succeed. -/
theorem C10_missing_userid_cex :
    check_authentication "webapp" false false
      { baseEnv with cookie := some (.tok
          { key := some "", battletag := some "legacy#1234", userId := none,
            superuser := none, iat := some 0, aud := some "webapp", exp := none }
          HMAC_KEY) }
      emptyState =
      .error (.keyError "user-id") := rfl

/-- C10 (amended): for every validly-signed, audience-matching, unexpired
token that carries a `user-id` claim, a present-but-empty (falsy) `key`
claim and a `battletag` claim, `check_authentication` (default flags)
succeeds and the attached `Session`'s key is the `battletag` value: the
legacy fallback is triggered by a falsy key, not only by an absent one. -/
theorem C10_falsy_key_fallback (allow_audience : String) (env : Env)
    (st : GState) (c : CookieV) (p : Claims) (b : String) (uid : Int)
    (hsess : st.session = none) (hc : env.cookie = some c)
    (hdec : jwt_decode c HMAC_KEY env.now allow_audience = .ok p)
    (hkey : p.key = some "") (hbt : p.battletag = some b)
    (huid : p.userId = some uid) :
    check_authentication allow_audience false false env st =
      .ok { resp := none
            state := { st with session := some ⟨uid, b, p.superuser.getD false⟩ }
            log := [.sessionValid, .oldStyleSession] } := by
  unfold check_authentication
  rw [hsess, hc]
  simp [hdec, after_decode, finish_session, resolve_key,
    resolve_key.key_fallback, hkey, hbt, huid]

def c10payload : Claims :=
  { key := some "", battletag := some "legacy#1234", userId := some 3,
    superuser := none, iat := some 0, aud := some "webapp", exp := none }

def c10env : Env := { baseEnv with cookie := some (.tok c10payload HMAC_KEY) }

/-- Witness for C10 at a concrete input: `key = ""`, `battletag =
"legacy#1234"`, `user-id = 3`; the session key comes from `battletag`. -/
theorem C10_falsy_key_fallback_witness :
    check_authentication "webapp" false false c10env emptyState =
      .ok { resp := none
            state := { emptyState with session := some ⟨3, "legacy#1234", c10payload.superuser.getD false⟩ }
            log := [.sessionValid, .oldStyleSession] } :=
  C10_falsy_key_fallback "webapp" c10env emptyState (.tok c10payload HMAC_KEY)
    c10payload "legacy#1234" 3 rfl rfl rfl rfl rfl rfl
